import Mathlib

/-!
# neal.fun-helper: the image analysis endpoint and its browser controller

A shallow embedding of `src/api/server.js` (the `POST /api/analyze` pipeline:
the multer upload middleware, the route handler, the two error middlewares) and
of `src/public/script.js` (the `ImageAnalyzer` controller), followed by the
properties of the specification that were checked against them.

Modelling conventions.
* JavaScript strings are Lean strings; `startsWith` and `includes` are the
  usual prefix and substring tests on their characters.
* `undefined` is `Option.none`.  A property whose value is `undefined` is left
  out of a JSON body, as `JSON.stringify` does.
* The outside world is a parameter: the environment variables, the outcome of
  the call to the model API, the outcome of `fetch` in the browser.
* Every call made to the model API is recorded, so that "the external API is
  not called" is a statement about the recorded list.
-/

namespace NealFunHelper

/-! ## JavaScript string helpers -/

/-- The method `s.startsWith(p)`. -/
def startsWith (s p : String) : Bool :=
  p.toList.isPrefixOf s.toList

/-- Substring search on character lists: does `pat` occur in `s`? -/
def includesChars (s pat : List Char) : Bool :=
  match s with
  | [] => pat.isPrefixOf []
  | c :: t => pat.isPrefixOf (c :: t) || includesChars t pat

/-- The method `s.includes(pat)`. -/
def includes (s pat : String) : Bool :=
  includesChars s.toList pat.toList

/-- JavaScript truthiness of a value that is a string or `undefined`:
`undefined` and the empty string are falsy. -/
def truthy (v : Option String) : Bool :=
  match v with
  | none => false
  | some s => s != ""

/-! ## JSON bodies -/

/-- Scalar JSON values. -/
inductive JsonAtom where
  | null
  | bool (b : Bool)
  | num (n : Nat)
  | str (s : String)
  deriving DecidableEq, Repr

/-- JSON values as deep as the server ever sends: a scalar, or an object of
scalars (the `metadata` object). -/
inductive JsonVal where
  | atom (a : JsonAtom)
  | obj (fields : List (String × JsonAtom))
  deriving DecidableEq, Repr

/-- A JSON string value. -/
def jstr (s : String) : JsonVal := .atom (.str s)

/-- The argument of `res.status(code).json(body)`. -/
structure Response where
  status : Nat
  body : List (String × JsonVal)
  deriving DecidableEq, Repr

/-- The value of property `key` of a response body, if present. -/
def Response.field (r : Response) (key : String) : Option JsonVal :=
  (r.body.find? (fun kv => kv.1 == key)).map (fun kv => kv.2)

/-! ## The upload middleware (`multer`) -/

/-- A file part of a multipart form, as the parser reports it to multer,
together with its content. -/
structure FilePart where
  fieldname : String
  originalname : String
  mimetype : String
  bytes : List Nat
  deriving DecidableEq, Repr

/-- One part of a multipart form: a text field or a file.  The parser limits on
text fields are not configured by the source and are outside the model: a text
field here is one the parser accepts. -/
inductive Part where
  | field (name value : String)
  | file (f : FilePart)
  deriving DecidableEq, Repr

/-- The parts of the body of a `POST /api/analyze` request, in order.  A body
that is not `multipart/form-data` is passed through by multer untouched and
behaves like the empty list. -/
abbrev Request := List Part

/-- The object multer's memory storage puts in `req.file`. -/
structure MulterFile where
  fieldname : String
  originalname : String
  mimetype : String
  buffer : List Nat
  size : Nat
  deriving DecidableEq, Repr

/-- An error handed to `next(error)`: a `MulterError` with its code, or a plain
`Error`. -/
inductive MiddlewareError where
  | multerError (code message : String)
  | error (message : String)
  deriving DecidableEq, Repr

/-- The option `limits.fileSize`: `10 * 1024 * 1024`. -/
def fileSizeLimit : Nat := 10 * 1024 * 1024

/-- The `fileFilter` option: `cb(null, true)` for an `image/` type, otherwise
`cb(new Error('Only image files are allowed'), false)`. -/
def fileFilter (file : FilePart) : Except String Bool :=
  if startsWith file.mimetype "image/" then .ok true
  else .error "Only image files are allowed"

/-- What memory storage records for an accepted file. -/
def memoryStorage (f : FilePart) : MulterFile :=
  { fieldname := f.fieldname, originalname := f.originalname, mimetype := f.mimetype,
    buffer := f.bytes, size := f.bytes.length }

/-- The middleware `upload.single('image')` run over the parts of a form.
`filesLeft` is the number of files still allowed in the `image` field (one at
the start), `file` the accepted file so far.  A file part without a file name
is dropped before anything else (it is what a browser sends for an empty file
input).  A named file in another field, or a second named file, is a
`LIMIT_UNEXPECTED_FILE` error; the file filter runs when the part starts,
before its content is read; a content that reaches `limits.fileSize` bytes is
a `LIMIT_FILE_SIZE` error.  The first error ends the parse. -/
def uploadSingle (filesLeft : Nat) (file : Option MulterFile) :
    List Part → Except MiddlewareError (Option MulterFile)
  | [] => .ok file
  | .field _ _ :: rest => uploadSingle filesLeft file rest
  | .file f :: rest =>
    if f.originalname == "" then uploadSingle filesLeft file rest
    else if f.fieldname != "image" || filesLeft == 0 then
      .error (.multerError "LIMIT_UNEXPECTED_FILE" "Unexpected field")
    else
      match fileFilter f with
      | .error message => .error (.error message)
      | .ok false => uploadSingle (filesLeft - 1) file rest
      | .ok true =>
        if f.bytes.length ≥ fileSizeLimit then
          .error (.multerError "LIMIT_FILE_SIZE" "File too large")
        else uploadSingle (filesLeft - 1) (some (memoryStorage f)) rest

/-! ## The call to the model API -/

/-- Standard base64 alphabet. -/
def base64Alphabet : List Char :=
  "ABCDEFGHIJKLMNOPQRSTUVWXYZabcdefghijklmnopqrstuvwxyz0123456789+/".toList

/-- The base64 digit of a six-bit value. -/
def base64Digit (n : Nat) : Char := base64Alphabet.getD (n % 64) 'A'

/-- Base64 encoding of a byte sequence, with padding. -/
def base64Chars : List Nat → List Char
  | [] => []
  | [a] =>
    let a := a % 256
    [base64Digit (a / 4), base64Digit (a % 4 * 16), '=', '=']
  | [a, b] =>
    let a := a % 256
    let b := b % 256
    [base64Digit (a / 4), base64Digit (a % 4 * 16 + b / 16), base64Digit (b % 16 * 4), '=']
  | a :: b :: c :: rest =>
    let a := a % 256
    let b := b % 256
    let c := c % 256
    base64Digit (a / 4) :: base64Digit (a % 4 * 16 + b / 16) ::
      base64Digit (b % 16 * 4 + c / 64) :: base64Digit (c % 64) :: base64Chars rest

/-- The call `buffer.toString('base64')`. -/
def toBase64 (buffer : List Nat) : String := String.mk (base64Chars buffer)

/-- The fixed instruction sent with every image. -/
def analysisPrompt : String :=
  "Look at this image and identify all the numbers and mathematical expressions you can see. Calculate the decimal value of each expression. Sort everything from least to greatest and format your response exactly like this:\n\nSorted from least to greatest:\n1. 2/6 = 0.333\n2. π/6 = 0.524\n3. √12 ≈ 3.464\n4. 3! = 6\n5. log₂(25) ≈ 4.644\n6. Σ(i=1)^5 i = 15\n7. ∫₁¹ x dx = 17.5\n8. e^5 ≈ 148.413\n9. ∞ = infinity\n\nIMPORTANT: Use proper mathematical symbols (√, π, ², ³, ≈, ∞, Σ, ∫, etc.) and clean formatting. Do NOT use backslashes, LaTeX code, or any \\commands. Use Unicode symbols only."

/-- The argument of `openai.chat.completions.create`: one user message with a
text item and an image item. -/
structure ChatRequest where
  model : String
  text : String
  imageUrl : String
  max_tokens : Nat
  deriving DecidableEq, Repr

/-- The request the handler builds for an accepted file. -/
def chatRequest (file : MulterFile) : ChatRequest :=
  { model := "gpt-4o"
    text := analysisPrompt
    imageUrl := "data:" ++ file.mimetype ++ ";base64," ++ toBase64 file.buffer
    max_tokens := 500 }

/-- One element of `response.choices`; `content` is `message.content`, a string
or `null`. -/
structure Choice where
  content : Option String
  deriving DecidableEq, Repr

/-- An object thrown inside the handler's `try` block, seen through the two
properties the `catch` block reads: `error.status` and `error.message`, each
possibly `undefined`. -/
structure Failure where
  status : Option Int
  message : Option String
  deriving DecidableEq, Repr

/-- How the awaited call to the model API ends: it resolves to a response with
a list of choices, or it throws. -/
inductive UpstreamOutcome where
  | response (choices : List Choice)
  | failure (e : Failure)
  deriving DecidableEq, Repr

/-- The process environment variables, as the handler reads them while it
serves a request. -/
structure Env where
  OPENAI_API_KEY : Option String
  NODE_ENV : Option String
  deriving DecidableEq, Repr

/-! ## The route handler -/

/-- How a run of the route handler ends: it sent a response, or an exception
left it (the promise returned by the `async` handler is rejected). -/
inductive HandlerResult where
  | sent (r : Response)
  | threw (message : String)
  deriving DecidableEq, Repr

/-- A run of the pipeline: how it ended and the calls made to the model API. -/
structure Exchange where
  result : HandlerResult
  calls : List ChatRequest
  deriving DecidableEq, Repr

/-- Message of the `TypeError` raised by `response.choices[0].message` when
`choices` is empty (V8 wording). -/
def noFirstChoiceMessage : String :=
  "Cannot read properties of undefined (reading \x27message\x27)"

/-- Message of the `TypeError` raised by `error.message.includes` when
`error.message` is `undefined` (V8 wording). -/
def noMessageMessage : String :=
  "Cannot read properties of undefined (reading \x27includes\x27)"

/-- The expression `error.message.includes(pat)`: a `TypeError` when
`error.message` is `undefined`. -/
def messageIncludes (error : Failure) (pat : String) : Except String Bool :=
  match error.message with
  | none => .error noMessageMessage
  | some m => .ok (includes m pat)

/-- The generic error response at the end of the `catch` block: `details` is
`error.message` when `NODE_ENV` is `development`, `undefined` otherwise. -/
def genericErrorResponse (env : Env) (error : Failure) : Response :=
  let details : Option String :=
    if env.NODE_ENV = some "development" then error.message else none
  { status := 500
    body := ("error", jstr "Failed to analyze image. Please try again later.") ::
      (match details with
       | some d => [("details", jstr d)]
       | none => []) }

/-- The `catch` block of the handler.  The test
`error.status === 400 && error.message.includes('image')` reads
`error.message` only when the status is 400. -/
def catchBlock (env : Env) (error : Failure) : HandlerResult :=
  if error.status = some 401 then
    .sent ⟨401, [("error",
      jstr "Invalid OpenAI API key. Please check your API key configuration.")]⟩
  else if error.status = some 429 then
    .sent ⟨429, [("error", jstr "Rate limit exceeded. Please try again later.")]⟩
  else
    match (if error.status = some 400 then messageIncludes error "image" else .ok false) with
    | .error message => .threw message
    | .ok true =>
      .sent ⟨400, [("error", jstr "Image format not supported or image too large.")]⟩
    | .ok false => .sent (genericErrorResponse env error)

/-- The body sent on success. -/
def successBody (analysis : Option String) (file : MulterFile) : List (String × JsonVal) :=
  [("success", .atom (.bool true)),
   ("analysis", match analysis with
     | some t => jstr t
     | none => .atom .null),
   ("metadata", .obj [("filename", .str file.originalname), ("size", .num file.size),
     ("type", .str file.mimetype)])]

/-- The handler of `POST /api/analyze`, given `req.file`. -/
def analyzeHandler (env : Env) (upstream : ChatRequest → UpstreamOutcome)
    (file : Option MulterFile) : Exchange :=
  match file with
  | none => ⟨.sent ⟨400, [("error", jstr "No image file provided")]⟩, []⟩
  | some f =>
    if !truthy env.OPENAI_API_KEY then
      ⟨.sent ⟨500, [("error", jstr
        "OpenAI API key not configured. Please set OPENAI_API_KEY environment variable.")]⟩, []⟩
    else
      let request := chatRequest f
      match upstream request with
      | .response (choice :: _) => ⟨.sent ⟨200, successBody choice.content f⟩, [request]⟩
      | .response [] => ⟨catchBlock env ⟨none, some noFirstChoiceMessage⟩, [request]⟩
      | .failure error => ⟨catchBlock env error, [request]⟩

/-! ## Error middlewares and the whole route -/

/-- The error-handling middleware for multer; `.error` is `next(error)`. -/
def multerErrorMiddleware (error : MiddlewareError) : Except MiddlewareError Response :=
  match error with
  | .multerError code message =>
    if code = "LIMIT_FILE_SIZE" then
      .ok ⟨400, [("error", jstr "File too large. Maximum size is 10MB.")]⟩
    else .ok ⟨400, [("error", jstr ("File upload error: " ++ message))]⟩
  | .error message =>
    if message = "Only image files are allowed" then
      .ok ⟨400, [("error", jstr "Only image files are allowed")]⟩
    else .error (.error message)

/-- The generic error handler. -/
def genericErrorHandler (_error : MiddlewareError) : Response :=
  ⟨500, [("error", jstr "Internal server error")]⟩

/-- The route `POST /api/analyze`: the upload middleware, then the handler, or
the error middlewares when the upload middleware fails. -/
def postAnalyze (env : Env) (upstream : ChatRequest → UpstreamOutcome)
    (request : Request) : Exchange :=
  match uploadSingle 1 none request with
  | .ok file => analyzeHandler env upstream file
  | .error error =>
    match multerErrorMiddleware error with
    | .ok response => ⟨.sent response, []⟩
    | .error error => ⟨.sent (genericErrorHandler error), []⟩

/-- The response sent, if any. -/
def Exchange.response? (x : Exchange) : Option Response :=
  match x.result with
  | .sent r => some r
  | .threw _ => none

/-- The file parts of a form that carry a file name, in order. -/
def namedFiles (parts : List Part) : List FilePart :=
  parts.filterMap (fun p => match p with
    | .file g => if g.originalname == "" then none else some g
    | .field _ _ => none)

/-- A form is a valid upload of `f` when `f` is its only named file, sits in
the `image` field, has an `image/` content type and fewer than `fileSizeLimit`
bytes. -/
def ValidUpload (request : Request) (f : FilePart) : Prop :=
  namedFiles request = [f] ∧
  f.fieldname = "image" ∧ startsWith f.mimetype "image/" = true ∧
  f.bytes.length < fileSizeLimit

instance (request : Request) (f : FilePart) : Decidable (ValidUpload request f) := by
  unfold ValidUpload; infer_instance

/-- A content one byte longer than the size limit. -/
def oversizedContent : List Nat := List.replicate (fileSizeLimit + 1) 0

/-- A content of exactly `fileSizeLimit` bytes. -/
def exactLimitContent : List Nat := List.replicate fileSizeLimit 0

/-- No part of the list is a named file: each is a text field or a file part
without a file name. -/
def noNamedFile (parts : List Part) : Bool :=
  parts.all (fun p => match p with
    | .field _ _ => true
    | .file f => f.originalname == "")

/-- Every part of the list is a text field: the form carries no file part. -/
def onlyFields (parts : List Part) : Bool :=
  parts.all (fun p => match p with
    | .field _ _ => true
    | .file _ => false)

/-- Some part of the form is a file in the `image` field. -/
def hasImageFile (parts : List Part) : Bool :=
  parts.any (fun p => match p with
    | .field _ _ => false
    | .file f => f.fieldname == "image")

/-! ## The browser controller (`ImageAnalyzer`) -/

/-- A `File` object chosen in the browser. -/
structure BrowserFile where
  name : String
  type : String
  bytes : List Nat
  deriving DecidableEq, Repr

/-- The form built by `formData.append('image', file)`. -/
def formData (file : BrowserFile) : Request :=
  [.file { fieldname := "image", originalname := file.name, mimetype := file.type,
           bytes := file.bytes }]

/-- The part of the page the controller reads and writes: the selected file,
the `disabled` flag of the analyze button, the `style.display` of the four
sections and the `textContent` of the result and error elements. -/
structure Page where
  selectedFile : Option BrowserFile
  analyzeBtnDisabled : Bool
  previewDisplay : String
  loadingDisplay : String
  resultDisplay : String
  resultText : String
  errorDisplay : String
  errorText : String
  deriving DecidableEq, Repr

/-- The parsed JSON body of the response, seen through the two properties the
controller reads, each a string or `undefined`. -/
structure ResultJson where
  error : Option String
  analysis : Option String
  deriving DecidableEq, Repr

/-- How `fetch('/api/analyze', ...)` followed by `response.json()` ends: the
fetch rejects, or a response with a status arrives whose body parses to an
object or fails to parse (with the message of the parse error). -/
inductive FetchOutcome where
  | rejected (message : String)
  | response (status : Nat) (json : Except String ResultJson)
  deriving Repr

/-- The flag `response.ok`: the status is in the range 200 to 299. -/
def responseOk (status : Nat) : Bool := 200 ≤ status && status ≤ 299

/-- Method `hideError`. -/
def hideError (p : Page) : Page := { p with errorDisplay := "none" }

/-- Method `hideLoading`. -/
def hideLoading (p : Page) : Page :=
  { p with loadingDisplay := "none", analyzeBtnDisabled := false }

/-- Method `showLoading`. -/
def showLoading (p : Page) : Page :=
  hideError { p with loadingDisplay := "block", analyzeBtnDisabled := true }

/-- Method `showResult`; assigning `undefined` to `textContent` empties it. -/
def showResult (p : Page) (analysis : Option String) : Page :=
  hideError { p with resultText := analysis.getD "", resultDisplay := "block" }

/-- Method `showError`. -/
def showError (p : Page) (message : String) : Page :=
  hideLoading { p with errorText := message, errorDisplay := "block" }

/-- The body of the `try` block of `handleSubmit` after the awaits: the page on
normal completion, or the message of the error thrown. -/
def submitTry (p : Page) (outcome : FetchOutcome) : Except String Page :=
  match outcome with
  | .rejected message => .error message
  | .response _ (.error message) => .error message
  | .response status (.ok result) =>
    if responseOk status then .ok (showResult p result.analysis)
    else .error (if truthy result.error then result.error.getD "" else "Failed to analyze image")

/-- Method `handleSubmit`: without a selected file it shows an error and
returns; otherwise it shows the loading section, runs the `try` block, shows
the message of a caught error, and hides the loading section in `finally`. -/
def handleSubmit (p : Page) (fetch : Request → FetchOutcome) : Page :=
  match p.selectedFile with
  | none => showError p "Please select an image first."
  | some file =>
    let p := showLoading p
    hideLoading (match submitTry p (fetch (formData file)) with
      | .ok p => p
      | .error message => showError p message)

/-! ## Auxiliary facts -/

section Auxiliary

/-- The substring test agrees with the infix relation on lists. -/
theorem includesChars_iff_isInfix (s pat : List Char) :
    includesChars s pat = true ↔ List.IsInfix pat s := by
  induction s with
  | nil =>
    cases pat <;> simp [includesChars, List.isPrefixOf]
  | cons c t ih =>
    simp only [includesChars, Bool.or_eq_true, ih, List.infix_cons_iff,
      List.isPrefixOf_iff_prefix]

/-- Text fields and nameless file parts do not change the state of the upload
middleware. -/
theorem uploadSingle_skips (n : Nat) (acc : Option MulterFile) (pre rest : List Part)
    (hpre : noNamedFile pre = true) :
    uploadSingle n acc (pre ++ rest) = uploadSingle n acc rest := by
  induction pre with
  | nil => rfl
  | cons p pre ih =>
    cases p with
    | field name value =>
      simp only [noNamedFile, List.all_cons, Bool.true_and] at hpre
      simpa [uploadSingle] using ih hpre
    | file f =>
      simp only [noNamedFile, List.all_cons, Bool.and_eq_true] at hpre
      simpa [uploadSingle, hpre.1] using ih hpre.2

/-- A form without named files leaves `req.file` as it was. -/
theorem uploadSingle_noNamedFile (n : Nat) (acc : Option MulterFile) (parts : List Part)
    (h : noNamedFile parts = true) : uploadSingle n acc parts = .ok acc := by
  have := uploadSingle_skips n acc parts [] h
  simpa [uploadSingle] using this

/-- A form of text fields only has no named file. -/
theorem noNamedFile_of_onlyFields (parts : List Part) (h : onlyFields parts = true) :
    noNamedFile parts = true := by
  simp only [onlyFields, List.all_eq_true] at h
  simp only [noNamedFile, List.all_eq_true]
  intro p hp
  have := h p hp
  cases p with
  | field _ _ => rfl
  | file f => simp at this

/-- A text field is not a named file. -/
theorem namedFiles_field (name value : String) (rest : List Part) :
    namedFiles (.field name value :: rest) = namedFiles rest := rfl

/-- A file part without a name is not a named file. -/
theorem namedFiles_nameless (g : FilePart) (rest : List Part)
    (h : (g.originalname == "") = true) :
    namedFiles (.file g :: rest) = namedFiles rest := by
  simp only [namedFiles, List.filterMap_cons, h, if_true]

/-- A file part with a name is a named file. -/
theorem namedFiles_named (g : FilePart) (rest : List Part)
    (h : ¬ (g.originalname == "") = true) :
    namedFiles (.file g :: rest) = g :: namedFiles rest := by
  simp only [namedFiles, List.filterMap_cons, h, Bool.false_eq_true, if_false]

/-- A form whose list of named files is empty has no named file. -/
theorem noNamedFile_of_namedFiles_nil (parts : List Part) (h : namedFiles parts = []) :
    noNamedFile parts = true := by
  simp only [noNamedFile, List.all_eq_true]
  intro p hp
  cases p with
  | field _ _ => rfl
  | file k =>
    by_cases hk : (k.originalname == "") = true
    · exact hk
    · have : k ∈ namedFiles parts :=
        List.mem_filterMap.mpr ⟨_, hp, by simp [hk]⟩
      rw [h] at this
      simp at this

/-- Without a file in the `image` field the upload middleware either passes the
request on with `req.file` untouched or fails with `LIMIT_UNEXPECTED_FILE`, the
latter only when the form has a file part. -/
theorem uploadSingle_no_image (n : Nat) (acc : Option MulterFile) (parts : List Part)
    (h : hasImageFile parts = false) :
    uploadSingle n acc parts = .ok acc ∨
    (onlyFields parts = false ∧ uploadSingle n acc parts =
      .error (.multerError "LIMIT_UNEXPECTED_FILE" "Unexpected field")) := by
  induction parts with
  | nil => left; rfl
  | cons p parts ih =>
    cases p with
    | field name value =>
      have h2 : hasImageFile parts = false := by simpa [hasImageFile] using h
      simpa [onlyFields, uploadSingle] using ih h2
    | file f =>
      have hf : (f.fieldname == "image") = false := by
        simp only [hasImageFile, List.any_cons, Bool.or_eq_false_iff] at h
        exact h.1
      have h2 : hasImageFile parts = false := by
        simp only [hasImageFile, List.any_cons, Bool.or_eq_false_iff] at h
        exact h.2
      by_cases hname : (f.originalname == "") = true
      · rcases ih h2 with hok | ⟨_, herr⟩
        · left; simp [uploadSingle, hname, hok]
        · right; exact ⟨by simp [onlyFields], by simp [uploadSingle, hname, herr]⟩
      · right
        refine ⟨by simp [onlyFields], ?_⟩
        simp [uploadSingle, hname, bne, hf]

/-- A valid upload reaches the handler with the uploaded file in `req.file`. -/
theorem uploadSingle_valid (request : Request) (f : FilePart) (h : ValidUpload request f) :
    uploadSingle 1 none request = .ok (some (memoryStorage f)) := by
  obtain ⟨hparts, hfield, htype, hsize⟩ := h
  induction request with
  | nil => simp [namedFiles] at hparts
  | cons p rest ih =>
    cases p with
    | field name value =>
      simp only [namedFiles, List.filterMap_cons] at hparts
      simpa [uploadSingle] using ih hparts
    | file g =>
      by_cases hname : (g.originalname == "") = true
      · simp only [namedFiles, List.filterMap_cons, hname, if_true] at hparts
        simpa [uploadSingle, hname] using ih hparts
      · simp only [namedFiles, List.filterMap_cons, hname, Bool.false_eq_true, if_false,
          List.cons.injEq] at hparts
        obtain ⟨hg, hrest⟩ := hparts
        subst hg
        have hnone := noNamedFile_of_namedFiles_nil rest hrest
        have hsz : ¬ fileSizeLimit ≤ g.bytes.length := Nat.not_le.mpr hsize
        simp [uploadSingle, hname, hfield, fileFilter, htype, hsz,
          uploadSingle_noNamedFile _ _ _ hnone]

/-- A named file in the `image` field that comes first among the named files is
rejected by the file filter when its type is not an image type. -/
theorem uploadSingle_wrong_type (pre rest : List Part) (f : FilePart)
    (hpre : noNamedFile pre = true) (hname : f.originalname ≠ "")
    (hfield : f.fieldname = "image") (htype : startsWith f.mimetype "image/" = false) :
    uploadSingle 1 none (pre ++ .file f :: rest) =
      .error (.error "Only image files are allowed") := by
  simp [uploadSingle_skips _ _ pre _ hpre, uploadSingle, hname, hfield, fileFilter, htype]

/-- A named image file in the `image` field that comes first among the named
files is rejected when its content reaches the size limit. -/
theorem uploadSingle_at_limit (pre rest : List Part) (f : FilePart)
    (hpre : noNamedFile pre = true) (hname : f.originalname ≠ "")
    (hfield : f.fieldname = "image") (htype : startsWith f.mimetype "image/" = true)
    (hsize : fileSizeLimit ≤ f.bytes.length) :
    uploadSingle 1 none (pre ++ .file f :: rest) =
      .error (.multerError "LIMIT_FILE_SIZE" "File too large") := by
  simp [uploadSingle_skips _ _ pre _ hpre, uploadSingle, hname, hfield, fileFilter, htype,
    hsize]

/-- With the credential set, a request whose file the upload middleware accepted
is answered from the outcome of the call to the model API, made once with the
request built from that file. -/
theorem postAnalyze_accepted (env : Env) (upstream : ChatRequest → UpstreamOutcome)
    (request : Request) (file : MulterFile)
    (hkey : truthy env.OPENAI_API_KEY = true)
    (hacc : uploadSingle 1 none request = .ok (some file)) :
    postAnalyze env upstream request =
      match upstream (chatRequest file) with
      | .response (choice :: _) =>
        ⟨.sent ⟨200, successBody choice.content file⟩, [chatRequest file]⟩
      | .response [] =>
        ⟨catchBlock env ⟨none, some noFirstChoiceMessage⟩, [chatRequest file]⟩
      | .failure error => ⟨catchBlock env error, [chatRequest file]⟩ := by
  simp only [postAnalyze, hacc, analyzeHandler, hkey, Bool.not_true, Bool.false_eq_true,
    if_false]

/-- The `catch` block sends a body with an `error` string for every failure
except one with status 400 and no message. -/
theorem catchBlock_sends (env : Env) (e : Failure)
    (h : e.status = some 400 → e.message ≠ none) :
    ∃ r, catchBlock env e = .sent r ∧ ∃ text, r.field "error" = some (jstr text) := by
  have hgeneric : ∃ text, (genericErrorResponse env e).field "error" = some (jstr text) :=
    ⟨_, rfl⟩
  obtain ⟨status, message⟩ := e
  by_cases h401 : status = some 401
  · have hc : catchBlock env ⟨status, message⟩ = .sent ⟨401, [("error",
        jstr "Invalid OpenAI API key. Please check your API key configuration.")]⟩ := by
      simp [catchBlock, h401]
    exact ⟨_, hc, _, rfl⟩
  by_cases h429 : status = some 429
  · have hc : catchBlock env ⟨status, message⟩ =
        .sent ⟨429, [("error", jstr "Rate limit exceeded. Please try again later.")]⟩ := by
      simp [catchBlock, h429]
    exact ⟨_, hc, _, rfl⟩
  by_cases h400 : status = some 400
  · cases message with
    | none => exact absurd rfl (h h400)
    | some m =>
      cases hinc : includes m "image"
      · have hc : catchBlock env ⟨status, some m⟩ =
            .sent (genericErrorResponse env ⟨status, some m⟩) := by
          simp [catchBlock, h401, h429, h400, messageIncludes, hinc]
        exact ⟨_, hc, hgeneric⟩
      · have hc : catchBlock env ⟨status, some m⟩ =
            .sent ⟨400, [("error", jstr "Image format not supported or image too large.")]⟩ := by
          simp [catchBlock, h401, h429, h400, messageIncludes, hinc]
        exact ⟨_, hc, _, rfl⟩
  · have hc : catchBlock env ⟨status, message⟩ =
        .sent (genericErrorResponse env ⟨status, message⟩) := by
      simp [catchBlock, h401, h429, h400]
    exact ⟨_, hc, hgeneric⟩

/-- With no named file left to accept, the upload middleware passes a form on
only if the form has no named file, and then leaves `req.file` as it was. -/
theorem uploadSingle_zero_ok (acc r : Option MulterFile) (parts : List Part)
    (h : uploadSingle 0 acc parts = .ok r) : r = acc ∧ namedFiles parts = [] := by
  induction parts with
  | nil =>
    simp only [uploadSingle, Except.ok.injEq] at h
    exact ⟨h.symm, rfl⟩
  | cons p rest ih =>
    cases p with
    | field name value =>
      simp only [uploadSingle] at h
      rw [namedFiles_field]
      exact ih h
    | file g =>
      by_cases hname : (g.originalname == "") = true
      · simp only [uploadSingle, hname, if_true] at h
        rw [namedFiles_nameless g rest hname]
        exact ih h
      · simp [uploadSingle, hname] at h

/-- The upload middleware hands a file to the handler exactly for the valid
uploads, and the file is the one memory storage records for the upload. -/
theorem uploadSingle_accepts_iff (request : Request) (file : MulterFile) :
    uploadSingle 1 none request = .ok (some file) ↔
      ∃ f, ValidUpload request f ∧ file = memoryStorage f := by
  constructor
  · intro h
    induction request with
    | nil => simp [uploadSingle] at h
    | cons p rest ih =>
      cases p with
      | field name value =>
        simp only [uploadSingle] at h
        obtain ⟨f, hv, hf⟩ := ih h
        exact ⟨f, ⟨by rw [namedFiles_field]; exact hv.1, hv.2⟩, hf⟩
      | file g =>
        by_cases hname : (g.originalname == "") = true
        · simp only [uploadSingle, hname, if_true] at h
          obtain ⟨f, hv, hf⟩ := ih h
          exact ⟨f, ⟨by rw [namedFiles_nameless g rest hname]; exact hv.1, hv.2⟩, hf⟩
        · by_cases hfield : g.fieldname = "image"
          · cases htype : startsWith g.mimetype "image/"
            · simp [uploadSingle, hname, hfield, fileFilter, htype] at h
            · by_cases hsize : fileSizeLimit ≤ g.bytes.length
              · simp [uploadSingle, hname, hfield, fileFilter, htype, hsize] at h
              · have h0 : uploadSingle 0 (some (memoryStorage g)) rest = .ok (some file) := by
                  simpa [uploadSingle, hname, hfield, fileFilter, htype, hsize] using h
                obtain ⟨hfile, hrest⟩ := uploadSingle_zero_ok _ _ _ h0
                refine ⟨g, ⟨?_, hfield, htype, Nat.lt_of_not_le hsize⟩, ?_⟩
                · rw [namedFiles_named g rest hname, hrest]
                · simpa using hfile
          · simp [uploadSingle, hname, hfield] at h
  · rintro ⟨f, hv, rfl⟩
    exact uploadSingle_valid request f hv

/-- The route always sends a JSON body, the success body or one with an `error`
string, provided a thrown failure with status 400 carries a message. -/
theorem route_responds_when_400_has_message (env : Env)
    (upstream : ChatRequest → UpstreamOutcome) (request : Request)
    (hmsg : ∀ q e, upstream q = .failure e → e.status = some 400 → e.message ≠ none) :
    ∃ r, (postAnalyze env upstream request).result = .sent r ∧
      (r.field "success" = some (.atom (.bool true)) ∨
        ∃ text, r.field "error" = some (jstr text)) := by
  unfold postAnalyze
  split
  · rename_i file _
    cases file with
    | none => exact ⟨_, rfl, Or.inr ⟨_, rfl⟩⟩
    | some f =>
      unfold analyzeHandler
      by_cases hkey : truthy env.OPENAI_API_KEY = true
      · simp only [hkey, Bool.not_true, Bool.false_eq_true, if_false]
        split
        · exact ⟨_, rfl, Or.inl rfl⟩
        · obtain ⟨r, hr, herr⟩ := catchBlock_sends env ⟨none, some noFirstChoiceMessage⟩
            (by intro h; cases h)
          exact ⟨r, hr, Or.inr herr⟩
        · rename_i error hup
          obtain ⟨r, hr, herr⟩ := catchBlock_sends env error (hmsg _ _ hup)
          exact ⟨r, hr, Or.inr herr⟩
      · have hk : truthy env.OPENAI_API_KEY = false := by simpa using hkey
        simp only [hk, Bool.not_false, if_true]
        exact ⟨_, rfl, Or.inr ⟨_, rfl⟩⟩
  · rename_i error _
    cases error with
    | multerError code message =>
      by_cases hc : code = "LIMIT_FILE_SIZE"
      · simp only [multerErrorMiddleware, hc, if_true]
        exact ⟨_, rfl, Or.inr ⟨_, rfl⟩⟩
      · simp only [multerErrorMiddleware, hc, if_false]
        exact ⟨_, rfl, Or.inr ⟨_, rfl⟩⟩
    | error message =>
      by_cases hc : message = "Only image files are allowed"
      · simp only [multerErrorMiddleware, hc, if_true]
        exact ⟨_, rfl, Or.inr ⟨_, rfl⟩⟩
      · simp only [multerErrorMiddleware, hc, if_false]
        exact ⟨_, rfl, Or.inr ⟨_, rfl⟩⟩

/-- The oversized content has one byte more than the limit. -/
theorem oversizedContent_length : oversizedContent.length > 10 * 1024 * 1024 := by
  rw [oversizedContent, List.length_replicate]
  decide

/-- The content at the limit has exactly `10 * 1024 * 1024` bytes. -/
theorem exactLimitContent_length : exactLimitContent.length = 10 * 1024 * 1024 := by
  rw [exactLimitContent, List.length_replicate]
  rfl

/-- The content at the limit reaches the size limit. -/
theorem exactLimitContent_reaches_limit : fileSizeLimit ≤ exactLimitContent.length := by
  rw [exactLimitContent, List.length_replicate]

/-- A named image file in the `image` field, first among the named files, whose
content reaches the size limit is answered with the 400 of an oversized file,
and the model API is not called. -/
theorem postAnalyze_at_limit (env : Env) (upstream : ChatRequest → UpstreamOutcome)
    (pre rest : List Part) (f : FilePart)
    (hpre : noNamedFile pre = true) (hname : f.originalname ≠ "")
    (hfield : f.fieldname = "image") (htype : startsWith f.mimetype "image/" = true)
    (hsize : fileSizeLimit ≤ f.bytes.length) :
    postAnalyze env upstream (pre ++ .file f :: rest) =
      ⟨.sent ⟨400, [("error", jstr "File too large. Maximum size is 10MB.")]⟩, []⟩ := by
  simp [postAnalyze, uploadSingle_at_limit pre rest f hpre hname hfield htype hsize,
    multerErrorMiddleware]

end Auxiliary

/-! ## Upload validation -/

/-- C1, as stated, fails: a file part without a file name is dropped by the
upload middleware whatever its type, so the answer is the one for a missing
file; and a named file of another type in a field other than `image` is
answered as an unexpected field. -/
theorem non_image_upload_other_answers :
    startsWith "application/octet-stream" "image/" = false ∧
    postAnalyze ⟨some "sk-test", none⟩ (fun _ => .response [])
        [.file ⟨"image", "", "application/octet-stream", []⟩] =
      ⟨.sent ⟨400, [("error", jstr "No image file provided")]⟩, []⟩ ∧
    startsWith "application/pdf" "image/" = false ∧
    postAnalyze ⟨some "sk-test", none⟩ (fun _ => .response [])
        [.file ⟨"document", "a.pdf", "application/pdf", [37, 80, 68, 70]⟩] =
      ⟨.sent ⟨400, [("error", jstr "File upload error: Unexpected field")]⟩, []⟩ := by
  decide

/-- C1, amended. A named file in the `image` field, first among the named files
of the form, whose content type does not start with `image/` is answered with
status 400 and body `{ error: "Only image files are allowed" }`, whatever its
size, the credential and the rest of the form, and the model API is not
called. -/
theorem non_image_upload_rejected (env : Env) (upstream : ChatRequest → UpstreamOutcome)
    (pre rest : List Part) (f : FilePart)
    (hpre : noNamedFile pre = true) (hname : f.originalname ≠ "")
    (hfield : f.fieldname = "image")
    (htype : startsWith f.mimetype "image/" = false) :
    postAnalyze env upstream (pre ++ .file f :: rest) =
      ⟨.sent ⟨400, [("error", jstr "Only image files are allowed")]⟩, []⟩ := by
  simp [postAnalyze, uploadSingle_wrong_type pre rest f hpre hname hfield htype,
    multerErrorMiddleware]

/-- Witness for C1 amended: a PDF of more than 10 MiB, after a text field and an
empty file input, sent to a server with an empty credential. -/
theorem non_image_upload_rejected_witness :
    oversizedContent.length > 10 * 1024 * 1024 ∧
    postAnalyze ⟨some "", none⟩ (fun _ => .response [])
        ([.field "note" "x", .file ⟨"image", "", "application/octet-stream", []⟩] ++
          .file ⟨"image", "a.pdf", "application/pdf", oversizedContent⟩ :: []) =
      ⟨.sent ⟨400, [("error", jstr "Only image files are allowed")]⟩, []⟩ :=
  ⟨oversizedContent_length,
    non_image_upload_rejected _ _ _ _ _ (by decide) (by decide) rfl (by decide)⟩

/-- C2, as stated, fails: an oversized image part without a file name is
dropped, so the answer is the one for a missing file; and a named oversized
image in a field other than `image` is answered as an unexpected field. -/
theorem oversized_upload_other_answers :
    oversizedContent.length > 10 * 1024 * 1024 ∧
    postAnalyze ⟨some "sk-test", none⟩ (fun _ => .response [])
        [.file ⟨"image", "", "image/png", oversizedContent⟩] =
      ⟨.sent ⟨400, [("error", jstr "No image file provided")]⟩, []⟩ ∧
    postAnalyze ⟨some "sk-test", none⟩ (fun _ => .response [])
        [.file ⟨"photo", "big.png", "image/png", oversizedContent⟩] =
      ⟨.sent ⟨400, [("error", jstr "File upload error: Unexpected field")]⟩, []⟩ :=
  ⟨oversizedContent_length, by decide, by decide⟩

/-- C2, amended. A named file in the `image` field, first among the named files
of the form, with an `image/` content type and more than `10 * 1024 * 1024`
bytes is answered with status 400 and body
`{ error: "File too large. Maximum size is 10MB." }`, and the model API is not
called. -/
theorem oversized_upload_rejected (env : Env) (upstream : ChatRequest → UpstreamOutcome)
    (pre rest : List Part) (f : FilePart)
    (hpre : noNamedFile pre = true) (hname : f.originalname ≠ "")
    (hfield : f.fieldname = "image")
    (htype : startsWith f.mimetype "image/" = true)
    (hsize : f.bytes.length > 10 * 1024 * 1024) :
    postAnalyze env upstream (pre ++ .file f :: rest) =
      ⟨.sent ⟨400, [("error", jstr "File too large. Maximum size is 10MB.")]⟩, []⟩ := by
  exact postAnalyze_at_limit env upstream pre rest f hpre hname hfield htype
    (Nat.le_of_lt hsize)

/-- Witness for C2 amended: a PNG of 10 MiB plus one byte. -/
theorem oversized_upload_rejected_witness :
    postAnalyze ⟨some "sk-test", none⟩ (fun _ => .response [])
        ([] ++ .file ⟨"image", "big.png", "image/png", oversizedContent⟩ :: []) =
      ⟨.sent ⟨400, [("error", jstr "File too large. Maximum size is 10MB.")]⟩, []⟩ :=
  oversized_upload_rejected _ _ _ _ _ rfl (by decide) rfl (by decide) oversizedContent_length

/-- C3. A request without a file in the `image` field is answered with status
400 and the model API is not called, whatever the other parts of the form and
the credential; when the form has no file part at all the body is
`{ error: "No image file provided" }`. -/
theorem no_image_file_is_400 (env : Env) (upstream : ChatRequest → UpstreamOutcome)
    (request : Request) (h : hasImageFile request = false) :
    (∃ r, (postAnalyze env upstream request).result = .sent r ∧ r.status = 400) ∧
    (postAnalyze env upstream request).calls = [] ∧
    (onlyFields request = true →
      postAnalyze env upstream request =
        ⟨.sent ⟨400, [("error", jstr "No image file provided")]⟩, []⟩) := by
  rcases uploadSingle_no_image 1 none request h with hu | ⟨hf, hu⟩
  · simp [postAnalyze, hu, analyzeHandler]
  · simp [postAnalyze, hu, hf, multerErrorMiddleware]

/-- Witness for C3: a form with two text fields and no file. -/
theorem no_image_file_is_400_witness :
    postAnalyze ⟨none, some "production"⟩ (fun _ => .response [⟨some "unused"⟩])
        [.field "image" "not a file", .field "comment" "hello"] =
      ⟨.sent ⟨400, [("error", jstr "No image file provided")]⟩, []⟩ :=
  (no_image_file_is_400 _ _ _ (by decide)).2.2 (by decide)

/-! ## Credential check -/

/-- C4, as stated, fails: when the handler finds no credential, be the variable
absent or empty, a request without upload gets the 400 of the missing file, not
a 500. -/
theorem missing_key_absent_upload_is_400 :
    (postAnalyze ⟨some "", none⟩ (fun _ => .response []) []).result =
      .sent ⟨400, [("error", jstr "No image file provided")]⟩ ∧
    (postAnalyze ⟨none, none⟩ (fun _ => .response []) []).result =
      .sent ⟨400, [("error", jstr "No image file provided")]⟩ := by
  decide

/-- C4, amended. When the handler finds no credential (the variable is unset or
empty), every valid upload (one named file, in the `image` field, of an
`image/` type, below 10 MiB) is answered with status 500 and the message naming
`OPENAI_API_KEY`, and for every request whatsoever no call to the model API is
made. -/
theorem missing_key_is_500_for_valid_upload (env : Env)
    (upstream : ChatRequest → UpstreamOutcome)
    (hkey : truthy env.OPENAI_API_KEY = false) :
    (∀ (request : Request) (f : FilePart), ValidUpload request f →
      postAnalyze env upstream request =
        ⟨.sent ⟨500, [("error", jstr
          "OpenAI API key not configured. Please set OPENAI_API_KEY environment variable.")]⟩,
          []⟩) ∧
    (∀ request : Request, (postAnalyze env upstream request).calls = []) := by
  constructor
  · intro request f hvalid
    simp [postAnalyze, uploadSingle_valid request f hvalid, analyzeHandler, hkey]
  · intro request
    unfold postAnalyze
    split
    · rename_i file _
      cases file <;> simp [analyzeHandler, hkey]
    · split <;> rfl

/-- Witness for C4 amended: a small PNG sent to a server whose credential is
empty. -/
theorem missing_key_is_500_for_valid_upload_witness :
    truthy (some "") = false ∧
    postAnalyze ⟨some "", some "development"⟩ (fun _ => .response [⟨some "unused"⟩])
        [.file ⟨"image", "a.png", "image/png", [137, 80, 78, 71]⟩] =
      ⟨.sent ⟨500, [("error", jstr
        "OpenAI API key not configured. Please set OPENAI_API_KEY environment variable.")]⟩,
        []⟩ :=
  ⟨rfl, (missing_key_is_500_for_valid_upload ⟨some "", some "development"⟩ _ rfl).1 _
    ⟨"image", "a.png", "image/png", [137, 80, 78, 71]⟩ (by decide)⟩

/-! ## Success path -/

/-- C5, as stated, fails: an image part without a file name never reaches the
handler, and an image of exactly `10 * 1024 * 1024` bytes, which is at most
10 MiB, is answered with the 400 of an oversized file; in both cases the
credential is set and the upstream would answer with a text. -/
theorem image_upload_not_always_200 :
    postAnalyze ⟨some "sk-test", none⟩ (fun _ => .response [⟨some "text"⟩])
        [.file ⟨"image", "", "image/png", [137, 80, 78, 71]⟩] =
      ⟨.sent ⟨400, [("error", jstr "No image file provided")]⟩, []⟩ ∧
    exactLimitContent.length ≤ 10 * 1024 * 1024 ∧
    postAnalyze ⟨some "sk-test", none⟩ (fun _ => .response [⟨some "text"⟩])
        [.file ⟨"image", "a.png", "image/png", exactLimitContent⟩] =
      ⟨.sent ⟨400, [("error", jstr "File too large. Maximum size is 10MB.")]⟩, []⟩ := by
  refine ⟨by decide, Nat.le_of_eq exactLimitContent_length, ?_⟩
  exact postAnalyze_at_limit _ _ [] [] ⟨"image", "a.png", "image/png", exactLimitContent⟩ rfl
    (by decide) rfl (by decide) exactLimitContent_reaches_limit

/-- C5, amended. For a valid upload (one named file, in the `image` field, of an
`image/` type, below 10 MiB) with the credential set and an upstream response
whose first choice carries the text `t`, the response has status 200 and body
`{ success: true, analysis: t, metadata: { filename, size, type } }` with `t`
unchanged, the original file name, the byte length of the upload and its
content type. -/
theorem success_passes_text_through (env : Env) (upstream : ChatRequest → UpstreamOutcome)
    (request : Request) (f : FilePart) (choice : Choice) (others : List Choice) (t : String)
    (hkey : truthy env.OPENAI_API_KEY = true) (hvalid : ValidUpload request f)
    (hup : upstream (chatRequest (memoryStorage f)) = .response (choice :: others))
    (ht : choice.content = some t) :
    postAnalyze env upstream request =
      ⟨.sent ⟨200, [("success", .atom (.bool true)), ("analysis", jstr t),
          ("metadata", .obj [("filename", .str f.originalname),
            ("size", .num f.bytes.length), ("type", .str f.mimetype)])]⟩,
        [chatRequest (memoryStorage f)]⟩ := by
  rw [postAnalyze_accepted env upstream request (memoryStorage f) hkey
    (uploadSingle_valid request f hvalid), hup]
  simp [successBody, ht, memoryStorage]

/-- Witness for C5 amended: a four-byte PNG and the completion text of the
specification. -/
theorem success_passes_text_through_witness :
    (postAnalyze ⟨some "sk-test", none⟩
        (fun _ => .response [⟨some "Sorted from least to greatest:\n1. ..."⟩])
        [.field "note" "x", .file ⟨"image", "a.png", "image/png", [137, 80, 78, 71]⟩]).result =
      .sent ⟨200, [("success", .atom (.bool true)),
          ("analysis", jstr "Sorted from least to greatest:\n1. ..."),
          ("metadata", .obj [("filename", .str "a.png"), ("size", .num 4),
            ("type", .str "image/png")])]⟩ :=
  congrArg Exchange.result
    (success_passes_text_through ⟨some "sk-test", none⟩ _ _
      ⟨"image", "a.png", "image/png", [137, 80, 78, 71]⟩ _ [] _ (by decide) (by decide) rfl rfl)

/-! ## Mapping of upstream failures -/

/-- C6. When the handler has a file and a credential and the upstream call
fails, a failure with status 429 is answered with status 429 and body
`{ error: "Rate limit exceeded. Please try again later." }`, and one with
status 401 with status 401 and the fixed invalid-key message; the body has the
`error` property only, whatever the message of the failure and `NODE_ENV`. -/
theorem upstream_429_and_401_are_fixed (env : Env) (upstream : ChatRequest → UpstreamOutcome)
    (request : Request) (file : MulterFile) (e : Failure)
    (hkey : truthy env.OPENAI_API_KEY = true)
    (hacc : uploadSingle 1 none request = .ok (some file))
    (hup : upstream (chatRequest file) = .failure e) :
    (e.status = some 429 →
      (postAnalyze env upstream request).result =
        .sent ⟨429, [("error", jstr "Rate limit exceeded. Please try again later.")]⟩) ∧
    (e.status = some 401 →
      (postAnalyze env upstream request).result =
        .sent ⟨401, [("error",
          jstr "Invalid OpenAI API key. Please check your API key configuration.")]⟩) := by
  rw [postAnalyze_accepted env upstream request file hkey hacc, hup]
  constructor <;> intro hs <;> simp [catchBlock, hs]

/-- Witness for C6: a 429 with its own message text in development mode, and a
401 without any message in production mode. -/
theorem upstream_429_and_401_are_fixed_witness :
    (postAnalyze ⟨some "sk-test", some "development"⟩
        (fun _ => .failure ⟨some 429, some "You exceeded your current quota"⟩)
        [.file ⟨"image", "a.png", "image/png", [137, 80, 78, 71]⟩]).result =
      .sent ⟨429, [("error", jstr "Rate limit exceeded. Please try again later.")]⟩ ∧
    (postAnalyze ⟨some "sk-test", some "production"⟩
        (fun _ => .failure ⟨some 401, none⟩)
        [.file ⟨"image", "a.png", "image/png", [137, 80, 78, 71]⟩]).result =
      .sent ⟨401, [("error",
        jstr "Invalid OpenAI API key. Please check your API key configuration.")]⟩ :=
  ⟨(upstream_429_and_401_are_fixed ⟨some "sk-test", some "development"⟩ _ _
      (memoryStorage ⟨"image", "a.png", "image/png", [137, 80, 78, 71]⟩) _ (by decide)
      (uploadSingle_valid _ _ (by decide)) rfl).1 rfl,
    (upstream_429_and_401_are_fixed ⟨some "sk-test", some "production"⟩ _ _
      (memoryStorage ⟨"image", "a.png", "image/png", [137, 80, 78, 71]⟩) _ (by decide)
      (uploadSingle_valid _ _ (by decide)) rfl).2 rfl⟩

/-- C7. When the handler has a file and a credential and the upstream call
fails, the response is status 400 with body
`{ error: "Image format not supported or image too large." }` exactly when the
status of the failure is 400 and its message contains `image`; a failure with
status 400 whose message does not contain `image` gets the generic 500
response. -/
theorem upstream_bad_image_iff (env : Env) (upstream : ChatRequest → UpstreamOutcome)
    (request : Request) (file : MulterFile) (e : Failure)
    (hkey : truthy env.OPENAI_API_KEY = true)
    (hacc : uploadSingle 1 none request = .ok (some file))
    (hup : upstream (chatRequest file) = .failure e) :
    ((postAnalyze env upstream request).result =
        .sent ⟨400, [("error", jstr "Image format not supported or image too large.")]⟩ ↔
      (e.status = some 400 ∧ ∃ m, e.message = some m ∧ includes m "image" = true)) ∧
    (∀ m, e.status = some 400 → e.message = some m → includes m "image" = false →
      (postAnalyze env upstream request).result =
        .sent ⟨500, ("error", jstr "Failed to analyze image. Please try again later.") ::
          (if env.NODE_ENV = some "development" then [("details", jstr m)] else [])⟩) := by
  rw [postAnalyze_accepted env upstream request file hkey hacc, hup]
  obtain ⟨status, message⟩ := e
  constructor
  · by_cases h401 : status = some 401
    · subst h401; simp [catchBlock]
    by_cases h429 : status = some 429
    · subst h429; simp [catchBlock]
    by_cases h400 : status = some 400
    · subst h400
      cases message with
      | none => simp [catchBlock, messageIncludes]
      | some m =>
        cases hinc : includes m "image" <;>
          simp [catchBlock, messageIncludes, hinc, genericErrorResponse]
    · simp [catchBlock, h401, h429, h400, genericErrorResponse]
  · intro m hs hm hinc
    simp only at hs hm
    subst hs hm
    by_cases hdev : env.NODE_ENV = some "development" <;>
      simp [catchBlock, messageIncludes, hinc, genericErrorResponse, hdev]

/-- Witness for C7: an upstream 400 that mentions `image` and one that does
not. -/
theorem upstream_bad_image_iff_witness :
    (postAnalyze ⟨some "sk-test", some "production"⟩
        (fun _ => .failure ⟨some 400, some "Invalid image data"⟩)
        [.file ⟨"image", "a.png", "image/png", [137, 80, 78, 71]⟩]).result =
      .sent ⟨400, [("error", jstr "Image format not supported or image too large.")]⟩ ∧
    (postAnalyze ⟨some "sk-test", some "production"⟩
        (fun _ => .failure ⟨some 400, some "Invalid value for max_tokens"⟩)
        [.file ⟨"image", "a.png", "image/png", [137, 80, 78, 71]⟩]).result =
      .sent ⟨500, [("error", jstr "Failed to analyze image. Please try again later.")]⟩ :=
  ⟨(upstream_bad_image_iff ⟨some "sk-test", some "production"⟩ _ _
      (memoryStorage ⟨"image", "a.png", "image/png", [137, 80, 78, 71]⟩) _ (by decide)
      (uploadSingle_valid _ _ (by decide)) rfl).1.mpr
      ⟨rfl, "Invalid image data", rfl, by decide⟩,
    (upstream_bad_image_iff ⟨some "sk-test", some "production"⟩ _ _
      (memoryStorage ⟨"image", "a.png", "image/png", [137, 80, 78, 71]⟩) _ (by decide)
      (uploadSingle_valid _ _ (by decide)) rfl).2
      "Invalid value for max_tokens" rfl rfl (by decide)⟩

/-- C8, as stated, fails: in the mode `test`, which is not production, the
generic 500 response carries no `details`. -/
theorem details_absent_in_test_mode :
    (some "test" : Option String) ≠ some "production" ∧
    (postAnalyze ⟨some "sk-test", some "test"⟩
        (fun _ => .failure ⟨some 503, some "upstream unavailable"⟩)
        [.file ⟨"image", "a.png", "image/png", [137, 80, 78, 71]⟩]).result =
      .sent ⟨500, [("error", jstr "Failed to analyze image. Please try again later.")]⟩ ∧
    (⟨500, [("error", jstr "Failed to analyze image. Please try again later.")]⟩ :
      Response).field "details" = none := by
  refine ⟨by decide, ?_, by decide⟩
  rw [postAnalyze_accepted _ _ _
    (memoryStorage ⟨"image", "a.png", "image/png", [137, 80, 78, 71]⟩) (by decide)
    (uploadSingle_valid _ _ (by decide))]
  decide

/-- C8, amended. When the handler has a file and a credential, every failure
raised in it (thrown by the upstream call, or by reading the first choice of an
empty list) that is not a 401, a 429, or a 400 whose message contains `image`
or is missing, is answered with status 500 and the generic error text;
`details` is the message of the failure, if it has one, when `NODE_ENV` is
`development`, and is absent in every other mode. -/
theorem generic_failure_is_500 (env : Env) (upstream : ChatRequest → UpstreamOutcome)
    (request : Request) (file : MulterFile) (e : Failure)
    (hkey : truthy env.OPENAI_API_KEY = true)
    (hacc : uploadSingle 1 none request = .ok (some file))
    (hup : upstream (chatRequest file) = .failure e ∨
      (upstream (chatRequest file) = .response [] ∧
        e = ⟨none, some noFirstChoiceMessage⟩))
    (h401 : e.status ≠ some 401) (h429 : e.status ≠ some 429)
    (h400 : e.status = some 400 → ∃ m, e.message = some m ∧ includes m "image" = false) :
    (postAnalyze env upstream request).result =
      .sent ⟨500, ("error", jstr "Failed to analyze image. Please try again later.") ::
        (if env.NODE_ENV = some "development" then
          (match e.message with
           | some m => [("details", jstr m)]
           | none => [])
         else [])⟩ := by
  have hcatch : catchBlock env e =
      .sent ⟨500, ("error", jstr "Failed to analyze image. Please try again later.") ::
        (if env.NODE_ENV = some "development" then
          (match e.message with
           | some m => [("details", jstr m)]
           | none => [])
         else [])⟩ := by
    obtain ⟨status, message⟩ := e
    simp only at h401 h429 h400
    by_cases hs : status = some 400
    · obtain ⟨m, hm, hinc⟩ := h400 hs
      subst hm
      by_cases hdev : env.NODE_ENV = some "development" <;>
        simp [catchBlock, h401, h429, hs, messageIncludes, hinc, genericErrorResponse, hdev]
    · by_cases hdev : env.NODE_ENV = some "development"
      · cases message <;>
          simp [catchBlock, h401, h429, hs, genericErrorResponse, hdev]
      · simp [catchBlock, h401, h429, hs, genericErrorResponse, hdev]
  rw [postAnalyze_accepted env upstream request file hkey hacc]
  rcases hup with hup | ⟨hup, he⟩
  · rw [hup]; exact hcatch
  · rw [hup]; subst he; exact hcatch

/-- Witness for C8 amended: a 503 in development mode carries its message, and
a failure without status or message gets the bare generic body. -/
theorem generic_failure_is_500_witness :
    (postAnalyze ⟨some "sk-test", some "development"⟩
        (fun _ => .failure ⟨some 503, some "upstream unavailable"⟩)
        [.file ⟨"image", "a.png", "image/png", [137, 80, 78, 71]⟩]).result =
      .sent ⟨500, [("error", jstr "Failed to analyze image. Please try again later."),
        ("details", jstr "upstream unavailable")]⟩ ∧
    (postAnalyze ⟨some "sk-test", some "development"⟩
        (fun _ => .failure ⟨none, none⟩)
        [.file ⟨"image", "a.png", "image/png", [137, 80, 78, 71]⟩]).result =
      .sent ⟨500, [("error", jstr "Failed to analyze image. Please try again later.")]⟩ :=
  ⟨generic_failure_is_500 ⟨some "sk-test", some "development"⟩ _ _
      (memoryStorage ⟨"image", "a.png", "image/png", [137, 80, 78, 71]⟩)
      ⟨some 503, some "upstream unavailable"⟩ (by decide)
      (uploadSingle_valid _ _ (by decide)) (Or.inl rfl) (by decide) (by decide)
      (fun h => absurd h (by decide)),
    generic_failure_is_500 ⟨some "sk-test", some "development"⟩ _ _
      (memoryStorage ⟨"image", "a.png", "image/png", [137, 80, 78, 71]⟩)
      ⟨none, none⟩ (by decide)
      (uploadSingle_valid _ _ (by decide)) (Or.inl rfl) (by decide) (by decide)
      (fun h => absurd h (by decide))⟩

/-! ## Totality of the route -/

/-- C9 does not hold of the code: when the upstream call throws an object with
status 400 and no message, the test `error.message.includes('image')` in the
`catch` block throws a `TypeError`, the exception leaves the handler and no
response is sent. -/
theorem failure_400_without_message_escapes :
    postAnalyze ⟨some "sk-test", none⟩ (fun _ => .failure ⟨some 400, none⟩)
        [.file ⟨"image", "a.png", "image/png", [137, 80, 78, 71]⟩] =
      ⟨.threw noMessageMessage,
        [chatRequest (memoryStorage ⟨"image", "a.png", "image/png", [137, 80, 78, 71]⟩)]⟩ ∧
    (postAnalyze ⟨some "sk-test", none⟩ (fun _ => .failure ⟨some 400, none⟩)
        [.file ⟨"image", "a.png", "image/png", [137, 80, 78, 71]⟩]).response? = none := by
  have h := postAnalyze_accepted ⟨some "sk-test", none⟩ (fun _ => .failure ⟨some 400, none⟩)
    [.file ⟨"image", "a.png", "image/png", [137, 80, 78, 71]⟩]
    (memoryStorage ⟨"image", "a.png", "image/png", [137, 80, 78, 71]⟩) (by decide)
    (uploadSingle_valid _ _ (by decide))
  rw [h]
  exact ⟨rfl, rfl⟩

/-! ## The browser controller -/

/-- C10, as stated, fails: when the `error` string of a non-OK response is
empty, the error element shows the fallback text instead. -/
theorem empty_error_string_is_replaced :
    (handleSubmit ⟨some ⟨"a.png", "image/png", [137, 80, 78, 71]⟩, false, "block", "none",
        "none", "", "none", ""⟩
      (fun _ => .response 400 (.ok ⟨some "", none⟩))).errorText = "Failed to analyze image" ∧
    "Failed to analyze image" ≠ "" := by
  decide

/-- C10, amended. With a file selected, for every non-OK response whose JSON
body has an `error` string `e`, whatever the status code, `handleSubmit` ends
with the text of the error element equal to `e` when `e` is not empty and to
the fallback text `Failed to analyze image` when it is, with the error section
shown and the loading section hidden. -/
theorem handleSubmit_shows_server_error (p : Page) (fetch : Request → FetchOutcome)
    (file : BrowserFile) (status : Nat) (result : ResultJson) (e : String)
    (hfile : p.selectedFile = some file)
    (hfetch : fetch (formData file) = .response status (.ok result))
    (hok : responseOk status = false)
    (herr : result.error = some e) :
    (handleSubmit p fetch).errorText = (if e = "" then "Failed to analyze image" else e) ∧
    (handleSubmit p fetch).errorDisplay = "block" ∧
    (handleSubmit p fetch).loadingDisplay = "none" := by
  by_cases hne : e = "" <;>
    simp [handleSubmit, hfile, hfetch, submitTry, hok, herr, truthy, hne, showError,
      hideLoading, showLoading, hideError]

/-- Witness for C10 amended: the answer of the generic error handler. -/
theorem handleSubmit_shows_server_error_witness :
    (handleSubmit ⟨some ⟨"a.png", "image/png", [137, 80, 78, 71]⟩, false, "block", "none",
        "none", "", "none", ""⟩
      (fun _ => .response 500 (.ok ⟨some "Internal server error", none⟩))).errorText =
      "Internal server error" :=
  (handleSubmit_shows_server_error _ _ ⟨"a.png", "image/png", [137, 80, 78, 71]⟩ 500
    ⟨some "Internal server error", none⟩ "Internal server error" rfl rfl (by decide)
    rfl).1

end NealFunHelper
